import Mathlib

/-!
Verification of the Professor Tutor agent configuration (app/agent.py).

The Python module defines four capability functions (pure string-returning
stubs, aside from a log line which we do not model), four declarative agent
definitions forming a tree, and a module-level environment setup that fills
three environment variables with defaults when absent.

Each Lean definition below embeds the corresponding Python definition;
apostrophes inside string literals are written with the escape \x27.
-/

namespace ProfessorTutor

/-- Embeds app/agent.py access_long_term_memory: returns the canned
prior-struggle summary when mode is read_summary, otherwise a generic
confirmation.  The print call (observability log line) is not modelled. -/
def access_long_term_memory (user_id : String) (mode : String)
    (data : String := "") : String :=
  if mode = "read_summary" then
    "User previously struggled with irregular past tense verbs."
  else
    "Memory access successful."

/-- Embeds app/agent.py create_learning_plan: returns the formatted
weekly-plan string built from the goals argument. -/
def create_learning_plan (current_level : String) (goals : String)
    (time_per_week : Int) (past_performance_summary : String) : String :=
  "Weekly Plan Created: Focus on \x27" ++ goals ++
    "\x27, building on past performance."

/-- Embeds app/agent.py generate_assessment: returns the formatted
quiz-ready string built from the topic argument. -/
def generate_assessment (topic : String) (num_questions : Int := 5)
    (focus_on_past_mistakes : Bool := true) : String :=
  "Quiz on \x27" ++ topic ++ "\x27 is ready."

/-- Embeds app/agent.py setup_scenario: returns the fixed restaurant
briefing (the Python f-string has no placeholders). -/
def setup_scenario (scenario_name : String)
    (difficulty : String := "intermediate") : String :=
  "Scenario ready: You are at a restaurant. Your opening line is \x27Hello, a table for one, please.\x27"

/-- The four capability functions of the module, as named references held in
an agent definition's tool list. -/
inductive Tool : Type where
  | access_long_term_memory : Tool
  | create_learning_plan : Tool
  | generate_assessment : Tool
  | setup_scenario : Tool
deriving DecidableEq, Repr

/-- An ADK Agent definition as constructed in app/agent.py: a name, a model
identifier, an instruction, a tool list and a sub-agent list. -/
inductive Agent : Type where
  | mk : String → String → String → List Tool → List Agent → Agent

def Agent.name : Agent → String
  | .mk n _ _ _ _ => n

def Agent.model : Agent → String
  | .mk _ m _ _ _ => m

def Agent.instruction : Agent → String
  | .mk _ _ i _ _ => i

def Agent.tools : Agent → List Tool
  | .mk _ _ _ t _ => t

def Agent.sub_agents : Agent → List Agent
  | .mk _ _ _ _ s => s

/-- Embeds app/agent.py planner_agent. -/
def planner_agent : Agent :=
  .mk "Planner_Agent" "gemini-1.5-pro-latest"
    "Your sole purpose is to create effective learning plans using your tools."
    [Tool.create_learning_plan, Tool.access_long_term_memory] []

/-- Embeds app/agent.py role_player_agent. -/
def role_player_agent : Agent :=
  .mk "Role_Player_Agent" "gemini-1.5-pro-latest"
    "Your sole purpose is to engage the user in realistic role-playing scenarios using your tools."
    [Tool.setup_scenario] []

/-- Embeds app/agent.py assessor_agent. -/
def assessor_agent : Agent :=
  .mk "Assessor_Agent" "gemini-1.5-pro-latest"
    "Your sole purpose is to create and run effective assessments using your tools, leveraging the user\x27s long-term memory to target weak areas."
    [Tool.generate_assessment, Tool.access_long_term_memory] []

/-- Embeds app/agent.py PROFESSOR_TUTOR_PROMPT (apostrophes written \x27,
backticks written \x60). -/
def PROFESSOR_TUTOR_PROMPT : String :=
  "\nYou are Professor Tutor, the lead agent and orchestrator of a language learning crew. Your personality is friendly, patient, and expert. Your primary role is to manage the user\x27s learning journey by understanding their needs and delegating tasks to your specialist agents.\n\n**Your Specialist Team:**\n- Planner_Agent: Creates structured, long-term learning schedules.\n- Role_Player_Agent: An expert actor who runs immersive, real-world scenarios.\n- Assessor_Agent: Designs and administers quizzes to identify and reinforce weak points.\n\n**Your Chain-of-Thought Process:**\nBefore responding to the user, you MUST engage in a silent, internal monologue using <thinking> tags. This is your core operational loop.\n\n1.  **Analyze Request:** What is the user\x27s explicit and implicit goal?\n2.  **Recall from Memory:** Access the Long-Term Memory tool to retrieve relevant user history, past struggles, and preferences.\n3.  **Delegate or Handle:** Decide if this is a simple conversational task you handle yourself, or if it requires a specialist.\n4.  **Formulate Response:** Based on the above, construct your response to the user.\n\n**Rules of Engagement:**\n1.  **Orchestration:** Your main job is to delegate. When a task is complex, announce which specialist is taking over.\n2.  **Memory is Key:** You MUST use the \x60access_long_term_memory\x60 tool to personalize every interaction.\n3.  **Continuity:** After a specialist agent completes a task, you will resume the conversation, summarize the results, and use the \x60access_long_term_memory\x60 tool to save the outcome.\n"

/-- Embeds app/agent.py root_agent, the Professor Tutor orchestrator. -/
def root_agent : Agent :=
  .mk "Professor_Tutor" "gemini-1.5-pro-latest"
    PROFESSOR_TUTOR_PROMPT
    [Tool.access_long_term_memory]
    [planner_agent, role_player_agent, assessor_agent]

/-- A process environment, mapping variable names to optional values. -/
abbrev Env : Type := String → Option String

/-- Embeds os.environ.setdefault as used in app/agent.py: an existing value
is kept, a missing one is filled with the given default. -/
def setdefault (env : Env) (key dflt : String) : Env :=
  fun k => if k = key then some ((env key).getD dflt) else env k

/-- Embeds the module-level boilerplate setup of app/agent.py: the project
id obtained from google.auth.default() and the three setdefault calls,
applied once, in source order, to the starting environment. -/
def moduleSetup (project_id : String) (env : Env) : Env :=
  setdefault
    (setdefault
      (setdefault env "GOOGLE_CLOUD_PROJECT" project_id)
      "GOOGLE_CLOUD_LOCATION" "global")
    "GOOGLE_GENAI_USE_VERTEXAI" "True"

mutual

/-- All agents strictly below the given agent in the sub-agent hierarchy. -/
def Agent.strictDescendants : Agent → List Agent
  | .mk _ _ _ _ subs => descList subs

/-- All agents of the list together with their strict descendants. -/
def descList : List Agent → List Agent
  | [] => []
  | a :: as => a :: (a.strictDescendants ++ descList as)

end

mutual

/-- Number of agent nodes in the tree rooted at the given agent. -/
def Agent.size : Agent → Nat
  | .mk _ _ _ _ subs => 1 + sizeList subs

/-- Total number of agent nodes in the trees of the list. -/
def sizeList : List Agent → Nat
  | [] => 0
  | a :: as => Agent.size a + sizeList as

end

/-- The full capability list of the module. -/
def allTools : List Tool :=
  [Tool.access_long_term_memory, Tool.create_learning_plan,
   Tool.generate_assessment, Tool.setup_scenario]

/-- A string that starts with a non-empty literal is non-empty. -/
theorem length_append3_ne_zero (a b c : String) (h : a.length ≠ 0) :
    (a ++ b ++ c).length ≠ 0 := by
  rw [String.length_append, String.length_append]
  omega

mutual

/-- Any strict descendant of an agent has strictly fewer nodes. -/
theorem size_lt_of_mem_strictDescendants :
    ∀ (a b : Agent), b ∈ a.strictDescendants → Agent.size b < Agent.size a
  | .mk n m i t subs, b, h => by
    simp only [Agent.strictDescendants] at h
    have hb := size_le_of_mem_descList subs b h
    simp only [Agent.size]
    omega

/-- Any member of descList of a list has at most as many nodes as the list. -/
theorem size_le_of_mem_descList :
    ∀ (l : List Agent) (b : Agent), b ∈ descList l → Agent.size b ≤ sizeList l
  | a :: as, b, h => by
    simp only [descList, List.mem_cons, List.mem_append] at h
    rcases h with h | h | h
    · subst h
      simp only [sizeList]
      omega
    · have := size_lt_of_mem_strictDescendants a b h
      simp only [sizeList]
      omega
    · have := size_le_of_mem_descList as b h
      simp only [sizeList]
      omega

end

/-- Claim C1: for every user identifier and payload, calling
access_long_term_memory with mode read_summary returns the literal
prior-struggles summary, independent of the other arguments. -/
theorem c1_read_summary_constant (user_id data : String) :
    access_long_term_memory user_id "read_summary" data
      = "User previously struggled with irregular past tense verbs." := rfl

/-- Claim C2: for every mode other than read_summary and every user
identifier and payload, access_long_term_memory returns the generic
success confirmation. -/
theorem c2_other_mode_generic (user_id mode data : String)
    (h : mode ≠ "read_summary") :
    access_long_term_memory user_id mode data = "Memory access successful." := by
  simp [access_long_term_memory, h]

/-- Witness for C2 at mode write. -/
theorem c2_other_mode_generic_witness :
    ("write" : String) ≠ "read_summary" ∧
    access_long_term_memory "user-1" "write" "payload"
      = "Memory access successful." :=
  ⟨by decide, c2_other_mode_generic "user-1" "write" "payload" (by decide)⟩

/-- Claim C3: each capability function, called with arbitrary arguments of
its declared types and only the required parameters supplied (defaults for
the rest), returns a non-empty string; each is a total Lean function, so no
exception is possible. -/
theorem c3_total_nonempty (user_id mode current_level goals : String)
    (time_per_week : Int) (past_performance_summary : String)
    (topic scenario_name : String) :
    (access_long_term_memory user_id mode).length ≠ 0 ∧
    (create_learning_plan current_level goals time_per_week
      past_performance_summary).length ≠ 0 ∧
    (generate_assessment topic).length ≠ 0 ∧
    (setup_scenario scenario_name).length ≠ 0 := by
  refine ⟨?_, ?_, ?_, ?_⟩
  · unfold access_long_term_memory
    split <;> decide
  · exact length_append3_ne_zero _ goals _ (by decide)
  · exact length_append3_ne_zero _ topic _ (by decide)
  · unfold setup_scenario
    decide

/-- Claim C4: setup_scenario called on scenario ordering coffee with the
difficulty omitted agrees with an explicit intermediate difficulty, and the
result contains the fixed opening line. -/
theorem c4_setup_scenario_default :
    setup_scenario "ordering coffee"
      = setup_scenario "ordering coffee" "intermediate" ∧
    ∃ a b : String, setup_scenario "ordering coffee"
      = a ++ "Hello, a table for one, please." ++ b :=
  ⟨rfl,
   "Scenario ready: You are at a restaurant. Your opening line is \x27",
   "\x27", by decide⟩

/-- Claim C5: generate_assessment on topic past tense verbs contains the
topic string in its result, for any question count and focus flag. -/
theorem c5_assessment_contains_topic (num_questions : Int)
    (focus_on_past_mistakes : Bool) :
    ∃ a b : String,
      generate_assessment "past tense verbs" num_questions focus_on_past_mistakes
        = a ++ "past tense verbs" ++ b :=
  ⟨"Quiz on \x27", "\x27 is ready.", rfl⟩

/-- Claim C6: the agent configuration is an inductive tree, so no agent is
among its own strict descendants; in particular root_agent is never
reachable from its own children, and a cyclic configuration is structurally
impossible to construct. -/
theorem c6_agent_tree_acyclic :
    (∀ a : Agent, a ∉ a.strictDescendants) ∧
    root_agent ∉ root_agent.strictDescendants := by
  have h : ∀ a : Agent, a ∉ a.strictDescendants := by
    intro a hmem
    exact absurd (size_lt_of_mem_strictDescendants a a hmem) (lt_irrefl _)
  exact ⟨h, h root_agent⟩

/-- Claim C7: root_agent holds exactly the memory capability as its only
direct tool; its sub-agents are the three specialists, each holding exactly
its narrow tool subset, and none of them holds the full capability list. -/
theorem c7_tool_allocation :
    root_agent.tools = [Tool.access_long_term_memory] ∧
    root_agent.sub_agents = [planner_agent, role_player_agent, assessor_agent] ∧
    planner_agent.tools
      = [Tool.create_learning_plan, Tool.access_long_term_memory] ∧
    role_player_agent.tools = [Tool.setup_scenario] ∧
    assessor_agent.tools
      = [Tool.generate_assessment, Tool.access_long_term_memory] ∧
    (∀ s ∈ root_agent.sub_agents, ¬ (allTools ⊆ s.tools)) := by
  refine ⟨rfl, rfl, rfl, rfl, rfl, ?_⟩
  decide

/-- Claim C8: after the module-level setup, each of the three environment
keys is always present: a pre-existing value is kept and a missing one is
filled with its default (the auth project id, global, and True), never an
error; keys other than the three are untouched. -/
theorem c8_env_defaults (project_id : String) (env : Env) :
    moduleSetup project_id env "GOOGLE_CLOUD_PROJECT"
      = some ((env "GOOGLE_CLOUD_PROJECT").getD project_id) ∧
    moduleSetup project_id env "GOOGLE_CLOUD_LOCATION"
      = some ((env "GOOGLE_CLOUD_LOCATION").getD "global") ∧
    moduleSetup project_id env "GOOGLE_GENAI_USE_VERTEXAI"
      = some ((env "GOOGLE_GENAI_USE_VERTEXAI").getD "True") ∧
    (∀ k : String, k ≠ "GOOGLE_CLOUD_PROJECT" → k ≠ "GOOGLE_CLOUD_LOCATION" →
      k ≠ "GOOGLE_GENAI_USE_VERTEXAI" → moduleSetup project_id env k = env k) := by
  refine ⟨?_, ?_, ?_, ?_⟩
  · simp [moduleSetup, setdefault]
  · simp [moduleSetup, setdefault]
  · simp [moduleSetup, setdefault]
  · intro k h1 h2 h3
    simp [moduleSetup, setdefault, h1, h2, h3]

/-- Claim C9: the text returned by setup_scenario is the same literal
briefing for all scenario names and difficulties. -/
theorem c9_scenario_output_constant (s1 d1 s2 d2 : String) :
    setup_scenario s1 d1 = setup_scenario s2 d2 := rfl

/-- Claim C10: the text returned by generate_assessment depends only on the
topic: question count and focus flag never influence it. -/
theorem c10_assessment_depends_only_on_topic (topic : String)
    (n1 n2 : Int) (f1 f2 : Bool) :
    generate_assessment topic n1 f1 = generate_assessment topic n2 f2 := rfl

end ProfessorTutor
